import Mathlib

/-!
Shallow embedding of the mars-protocol/owner crate (src/owner.rs), with the
"emergency-owner" cargo feature enabled so that every variant and field of the
source is represented.

Modelling conventions:
* `Addr` (cosmwasm `Addr`) is a string.
* `Api` models `&dyn Api`: `addr_validate` takes the raw string and either
  returns the validated address or a `StdError` message.
* The `Item<OwnerState>` storage slot is a `Store := Option OwnerState`;
  `Owner::state` is `may_load(storage)?.unwrap_or(Uninitialized)`.
* Rust methods become pure functions; the mutating entrypoints
  (`Owner::initialize`, here `Owner.init`, and `Owner::update`) are rendered in
  store-passing style: they return the resulting store together with the
  `Result`.  A `?` early return yields the untouched store, because the source
  performs no write before `Item::save`, which is the last storage operation.
-/

/-- cosmwasm `Addr`: a validated address string. -/
abbrev Addr := String

/-- Model of `&dyn Api`: `addr_validate` either validates the raw string into an
`Addr` or fails with a `StdError` message. -/
abbrev Api := String → Except String Addr

/-- `enum OwnerState` from src/owner.rs (feature `emergency-owner` on). -/
inductive OwnerState where
  | uninitialized
  | std (owner : Addr) (emergency_owner : Option Addr)
  | proposed (owner : Addr) (proposed : Addr) (emergency_owner : Option Addr)
  | abolished
deriving DecidableEq

/-- `enum OwnerError` from src/owner.rs.  `std` wraps a `StdError` message
(raised here only by address validation). -/
inductive OwnerError where
  | std (msg : String)
  | notOwner
  | notProposedOwner
  | stateTransitionError
  | notEmergencyOwner
deriving DecidableEq

/-- `enum OwnerUpdate` from src/owner.rs. -/
inductive OwnerUpdate where
  | proposeNewOwner (proposed : String)
  | clearProposed
  | acceptProposed
  | abolishOwnerRole
  | setEmergencyOwner (emergency_owner : String)
  | clearEmergencyOwner
deriving DecidableEq

/-- `enum OwnerInit` from src/owner.rs. -/
inductive OwnerInit where
  | setInitialOwner (owner : String)
  | abolishOwnerRole
deriving DecidableEq

/-- `struct OwnerResponse` from src/owner.rs. -/
structure OwnerResponse where
  owner : Option String
  proposed : Option String
  initialized : Bool
  abolished : Bool
  emergency_owner : Option String
deriving DecidableEq

/-- One `(key, value)` response attribute added by `Owner::update`. -/
structure ResponseAttribute where
  key : String
  value : String
deriving DecidableEq

/-- The `Item<OwnerState>` slot: `none` when nothing has been saved yet. -/
abbrev Store := Option OwnerState

namespace Owner

/-- `Owner::state`: `self.0.may_load(storage)?.unwrap_or(OwnerState::Uninitialized)`. -/
def state (store : Store) : OwnerState :=
  store.getD .uninitialized

/-- `Owner::current`. -/
def current (store : Store) : Option Addr :=
  match state store with
  | .std owner _ => some owner
  | .proposed owner _ _ => some owner
  | _ => none

/-- `Owner::is_owner`: `match current { Some(owner) if owner == addr => true, _ => false }`. -/
def is_owner (store : Store) (addr : Addr) : Bool :=
  match current store with
  | some owner => owner == addr
  | none => false

/-- `Owner::proposed`. -/
def proposed (store : Store) : Option Addr :=
  match state store with
  | .proposed _ p _ => some p
  | _ => none

/-- `Owner::is_proposed`. -/
def is_proposed (store : Store) (addr : Addr) : Bool :=
  match proposed store with
  | some p => p == addr
  | none => false

/-- `Owner::emergency_owner` (feature `emergency-owner`). -/
def emergency_owner (store : Store) : Option Addr :=
  match state store with
  | .std _ em => em
  | .proposed _ _ em => em
  | _ => none

/-- `Owner::is_emergency_owner` (feature `emergency-owner`). -/
def is_emergency_owner (store : Store) (addr : Addr) : Bool :=
  match emergency_owner store with
  | some em => em == addr
  | none => false

/-- `Owner::query`. -/
def query (store : Store) : OwnerResponse :=
  ⟨ current store
  , proposed store
  , !(match state store with | .uninitialized => true | _ => false)
  , (match state store with | .abolished => true | _ => false)
  , emergency_owner store ⟩

/-- `Owner::assert_owner`. -/
def assert_owner (store : Store) (caller : Addr) : Except OwnerError Unit :=
  if !(is_owner store caller) then .error .notOwner else .ok ()

/-- `Owner::assert_proposed`. -/
def assert_proposed (store : Store) (caller : Addr) : Except OwnerError Unit :=
  if !(is_proposed store caller) then .error .notProposedOwner else .ok ()

/-- `Owner::assert_emergency_owner` (feature `emergency-owner`). -/
def assert_emergency_owner (store : Store) (caller : Addr) : Except OwnerError Unit :=
  if !(is_emergency_owner store caller) then .error .notEmergencyOwner else .ok ()

/-- `Owner::transition_state`: the `match (state, event)` table.  The `?` on
`assert_owner`/`assert_proposed`/`api.addr_validate` is rendered as an explicit
match that propagates the error (`From<StdError>` turns a validation failure
into `OwnerError::Std`). -/
def transition_state (api : Api) (store : Store) (sender : Addr)
    (event : OwnerUpdate) : Except OwnerError OwnerState :=
  match state store, event with
  | .std owner em, .proposeNewOwner p =>
      (match assert_owner store sender with
       | .error e => .error e
       | .ok _ =>
         match api p with
         | .error e => .error (.std e)
         | .ok validated => .ok (.proposed owner validated em))
  | .std owner _, .setEmergencyOwner em =>
      (match assert_owner store sender with
       | .error e => .error e
       | .ok _ =>
         match api em with
         | .error e => .error (.std e)
         | .ok validated => .ok (.std owner (some validated)))
  | .std owner _, .clearEmergencyOwner =>
      (match assert_owner store sender with
       | .error e => .error e
       | .ok _ => .ok (.std owner none))
  | .std _ _, .abolishOwnerRole =>
      (match assert_owner store sender with
       | .error e => .error e
       | .ok _ => .ok .abolished)
  | .proposed _ p em, .acceptProposed =>
      (match assert_proposed store sender with
       | .error e => .error e
       | .ok _ => .ok (.std p em))
  | .proposed owner _ em, .clearProposed =>
      (match assert_owner store sender with
       | .error e => .error e
       | .ok _ => .ok (.std owner em))
  | _, _ => .error .stateTransitionError

/-- `Owner::initialize` (named `init` here): only from `Uninitialized`; stores
the new state on success, otherwise fails with `StateTransitionError` (or the
validation error) and writes nothing. -/
def init (api : Api) (store : Store) (init_action : OwnerInit) :
    Store × Except OwnerError Unit :=
  match state store with
  | .uninitialized =>
      (match init_action with
       | .setInitialOwner owner =>
           (match api owner with
            | .error e => (store, .error (.std e))
            | .ok validated => (some (.std validated none), .ok ()))
       | .abolishOwnerRole => (some .abolished, .ok ()))
  | _ => (store, .error .stateTransitionError)

/-- `Owner::update`: runs `transition_state`, saves the new state on success,
then builds the response attributes from `query` on the saved state. -/
def update (api : Api) (store : Store) (sender : Addr) (event : OwnerUpdate) :
    Store × Except OwnerError (List ResponseAttribute) :=
  match transition_state api store sender event with
  | .error e => (store, .error e)
  | .ok new_state =>
      let store2 : Store := some new_state
      let res := query store2
      (store2, .ok
        [ ⟨"action", "update_owner"⟩
        , ⟨"owner", res.owner.getD "None"⟩
        , ⟨"proposed", res.proposed.getD "None"⟩
        , ⟨"sender", sender⟩ ])

end Owner

/-- An `Api` that accepts every address unchanged; used for concrete runs. -/
def okApi : Api := fun s => .ok s

/-- An `Api` that rejects every address; used to observe validation ordering. -/
def rejectApi : Api := fun _ => .error "invalid address"

/-! Claims about the transition table. -/

/-- C1, counterexample: the claim says that from
`Proposed{owner := "alice", proposed := "bob"}` the owner "alice" can run
`AbolishOwnerRole` and reach `Abolished`; the code has no
`(Proposed, AbolishOwnerRole)` arm, so the call hits the catch-all and fails
with `StateTransitionError`. -/
theorem abolish_from_proposed_rejected_for_owner :
    Owner.transition_state okApi (some (.proposed "alice" "bob" none)) "alice"
      .abolishOwnerRole = .error .stateTransitionError := rfl

/-- C1, amended: in state `Proposed`, `AbolishOwnerRole` fails with
`StateTransitionError` for every caller (the owner included) and every api;
the owner can abolish the role only from the `Std` state. -/
theorem abolish_from_proposed_always_rejected (api : Api) (o p c : Addr)
    (em : Option Addr) :
    Owner.transition_state api (some (.proposed o p em)) c .abolishOwnerRole
      = .error .stateTransitionError := rfl

/-- C2, counterexample: `Std{owner := "alice"}` is a state with a current
owner, `ClearProposed` is one of the five owner-gated events, and the caller
"mallory" differs from the owner; yet the call fails with
`StateTransitionError`, not `NotOwner`. -/
theorem owner_gated_not_owner_cex :
    ¬("mallory" = "alice") ∧
    Owner.update okApi (some (.std "alice" none)) "mallory" .clearProposed
      = (some (.std "alice" none), .error .stateTransitionError) :=
  ⟨by decide, rfl⟩

/-- C2, amended: a caller different from the current owner receives `NotOwner`
with the store unchanged exactly for the owner-gated `(state, event)` pairs
present in the transition table — `ProposeNewOwner`, `SetEmergencyOwner`,
`ClearEmergencyOwner` and `AbolishOwnerRole` from `Std`, and `ClearProposed`
from `Proposed`; for the remaining owner-gated pairs the call fails with
`StateTransitionError` (for every caller), again leaving the store unchanged. -/
theorem owner_gated_auth_table (api : Api) (owner caller p q x : Addr)
    (em : Option Addr) (h : caller ≠ owner) :
    Owner.update api (some (.std owner em)) caller (.proposeNewOwner p)
        = (some (.std owner em), .error .notOwner) ∧
    Owner.update api (some (.std owner em)) caller (.setEmergencyOwner x)
        = (some (.std owner em), .error .notOwner) ∧
    Owner.update api (some (.std owner em)) caller .clearEmergencyOwner
        = (some (.std owner em), .error .notOwner) ∧
    Owner.update api (some (.std owner em)) caller .abolishOwnerRole
        = (some (.std owner em), .error .notOwner) ∧
    Owner.update api (some (.proposed owner p em)) caller .clearProposed
        = (some (.proposed owner p em), .error .notOwner) ∧
    Owner.update api (some (.std owner em)) caller .clearProposed
        = (some (.std owner em), .error .stateTransitionError) ∧
    Owner.update api (some (.proposed owner p em)) caller (.proposeNewOwner q)
        = (some (.proposed owner p em), .error .stateTransitionError) ∧
    Owner.update api (some (.proposed owner p em)) caller .abolishOwnerRole
        = (some (.proposed owner p em), .error .stateTransitionError) ∧
    Owner.update api (some (.proposed owner p em)) caller (.setEmergencyOwner x)
        = (some (.proposed owner p em), .error .stateTransitionError) ∧
    Owner.update api (some (.proposed owner p em)) caller .clearEmergencyOwner
        = (some (.proposed owner p em), .error .stateTransitionError) := by
  have hb : (owner == caller) = false := beq_eq_false_iff_ne.mpr (fun hE => h hE.symm)
  refine ⟨?_, ?_, ?_, ?_, ?_, ?_, ?_, ?_, ?_, ?_⟩ <;>
    simp [Owner.update, Owner.transition_state, Owner.state, Owner.assert_owner,
      Owner.is_owner, Owner.current, hb]

/-- C2, witness for `owner_gated_auth_table` at a concrete input. -/
theorem owner_gated_auth_table_witness :
    Owner.update okApi (some (.std "alice" none)) "mallory" (.proposeNewOwner "bob")
      = (some (.std "alice" none), .error .notOwner) :=
  (owner_gated_auth_table okApi "alice" "mallory" "bob" "carl" "carol" none
    (by decide)).1

/-- C3: `Abolished` is absorbing — every update event from every caller fails
with `StateTransitionError`, and no transition out of `Abolished` can succeed
with any state other than `Abolished` itself. -/
theorem abolished_absorbing (api : Api) (ev : OwnerUpdate) (c : Addr) :
    Owner.transition_state api (some .abolished) c ev
        = .error .stateTransitionError ∧
    (∀ s2, Owner.transition_state api (some .abolished) c ev = .ok s2 →
        s2 = OwnerState.abolished) := by
  have h1 : Owner.transition_state api (some .abolished) c ev
      = .error .stateTransitionError := by
    cases ev <;> rfl
  refine ⟨h1, fun s2 hs2 => ?_⟩
  rw [h1] at hs2
  exact absurd hs2 (by simp)

/-- C3, witness for `abolished_absorbing` at a concrete input. -/
theorem abolished_absorbing_witness :
    Owner.transition_state okApi (some .abolished) "alice" .acceptProposed
      = .error .stateTransitionError :=
  (abolished_absorbing okApi .acceptProposed "alice").1

/-- C4: the initialization entrypoint fails with `StateTransitionError` and
leaves the store unchanged from every state other than `Uninitialized`; hence
once an initialization has succeeded, every subsequent initialization call
fails with `StateTransitionError`. -/
theorem init_only_from_uninitialized (api api2 : Api) (store : Store)
    (ia ia2 : OwnerInit) :
    (Owner.state store ≠ .uninitialized →
      Owner.init api store ia = (store, .error .stateTransitionError)) ∧
    (∀ store2, Owner.init api store ia = (store2, .ok ()) →
      Owner.init api2 store2 ia2 = (store2, .error .stateTransitionError)) := by
  have hfail : ∀ st : Store, Owner.state st ≠ .uninitialized → ∀ a : Api,
      ∀ i : OwnerInit, Owner.init a st i = (st, .error .stateTransitionError) := by
    intro st hne a i
    cases hs : Owner.state st with
    | uninitialized => exact absurd hs hne
    | std o e => simp [Owner.init, hs]
    | proposed o p e => simp [Owner.init, hs]
    | abolished => simp [Owner.init, hs]
  refine ⟨fun h => hfail store h api ia, fun store2 hsucc => ?_⟩
  have hne2 : Owner.state store2 ≠ .uninitialized := by
    cases hs : Owner.state store with
    | uninitialized =>
      cases ia with
      | setInitialOwner o =>
        cases hv : api o with
        | error msg => simp [Owner.init, hs, hv] at hsucc
        | ok v =>
          simp [Owner.init, hs, hv] at hsucc
          rw [← hsucc]
          simp [Owner.state]
      | abolishOwnerRole =>
        simp [Owner.init, hs] at hsucc
        rw [← hsucc]
        simp [Owner.state]
    | std o e => simp [Owner.init, hs] at hsucc
    | proposed o p e => simp [Owner.init, hs] at hsucc
    | abolished => simp [Owner.init, hs] at hsucc
  exact hfail store2 hne2 api2 ia2

/-- C4, witness for `init_only_from_uninitialized` at a concrete input. -/
theorem init_only_from_uninitialized_witness :
    Owner.init okApi (some .abolished) (.setInitialOwner "alice")
      = (some .abolished, .error .stateTransitionError) :=
  (init_only_from_uninitialized okApi okApi (some .abolished)
    (.setInitialOwner "alice") (.setInitialOwner "bob")).1 (by decide)

/-- C5: from `Uninitialized`, initializing with `SetInitialOwner X` for a valid
identity `X` succeeds and stores `Std{owner := X, emergency_owner := none}`;
afterwards `current` is `some X`, `proposed` is `none`, and the query shows
`initialized = true`, `abolished = false`. -/
theorem init_set_initial_owner (api : Api) (store : Store) (X : Addr)
    (h0 : Owner.state store = .uninitialized) (hX : api X = .ok X) :
    Owner.init api store (.setInitialOwner X) = (some (.std X none), .ok ()) ∧
    Owner.current (some (.std X none)) = some X ∧
    Owner.proposed (some (.std X none)) = none ∧
    (Owner.query (some (.std X none))).initialized = true ∧
    (Owner.query (some (.std X none))).abolished = false := by
  refine ⟨?_, rfl, rfl, rfl, rfl⟩
  simp [Owner.init, h0, hX]

/-- C5, witness for `init_set_initial_owner` at a concrete input. -/
theorem init_set_initial_owner_witness :
    Owner.init okApi none (.setInitialOwner "alice")
      = (some (.std "alice" none), .ok ()) :=
  (init_set_initial_owner okApi none "alice" rfl rfl).1

/-- C6: handover round trip.  From `Std{owner := A, emergency_owner := em}`,
`ProposeNewOwner B` by `A` stores `Proposed{A, B, em}`; `AcceptProposed` by `B`
stores `Std{B, em}` with `proposed` now `none`; `AcceptProposed` by any other
caller fails with `NotProposedOwner` and leaves the store unchanged. -/
theorem handover_round_trip (api : Api) (A B c : Addr) (em : Option Addr)
    (hB : api B = .ok B) (hc : c ≠ B) :
    (Owner.update api (some (.std A em)) A (.proposeNewOwner B)).1
        = some (.proposed A B em) ∧
    (Owner.update api (some (.proposed A B em)) B .acceptProposed).1
        = some (.std B em) ∧
    Owner.proposed ((Owner.update api (some (.proposed A B em)) B .acceptProposed).1)
        = none ∧
    Owner.update api (some (.proposed A B em)) c .acceptProposed
        = (some (.proposed A B em), .error .notProposedOwner) := by
  have hcB : (B == c) = false := beq_eq_false_iff_ne.mpr (fun hE => hc hE.symm)
  have h1 : Owner.transition_state api (some (.std A em)) A (.proposeNewOwner B)
      = .ok (.proposed A B em) := by
    simp [Owner.transition_state, Owner.state, Owner.assert_owner, Owner.is_owner,
      Owner.current, hB]
  have h2 : Owner.transition_state api (some (.proposed A B em)) B .acceptProposed
      = .ok (.std B em) := by
    simp [Owner.transition_state, Owner.state, Owner.assert_proposed,
      Owner.is_proposed, Owner.proposed]
  refine ⟨?_, ?_, ?_, ?_⟩
  · simp [Owner.update, h1]
  · simp [Owner.update, h2]
  · simp [Owner.update, h2, Owner.proposed, Owner.state]
  · simp [Owner.update, Owner.transition_state, Owner.state, Owner.assert_proposed,
      Owner.is_proposed, Owner.proposed, hcB]

/-- C6, witness for `handover_round_trip` at a concrete input. -/
theorem handover_round_trip_witness :
    Owner.update okApi (some (.proposed "alice" "bob" none)) "mallory"
      .acceptProposed
      = (some (.proposed "alice" "bob" none), .error .notProposedOwner) :=
  (handover_round_trip okApi "alice" "bob" "mallory" none rfl (by decide)).2.2.2

/-- C7: with the emergency-owner extension, from `Std{owner, em}` the owner
calling `SetEmergencyOwner x` (for a valid `x`) stores
`Std{owner, emergency_owner := some x}`, making `is_emergency_owner` true of
`x`; the owner then calling `ClearEmergencyOwner` stores
`Std{owner, emergency_owner := none}`, after which `is_emergency_owner x` is
false and `emergency_owner` is `none`. -/
theorem emergency_owner_set_clear (api : Api) (owner x : Addr) (em : Option Addr)
    (hx : api x = .ok x) :
    (Owner.update api (some (.std owner em)) owner (.setEmergencyOwner x)).1
        = some (.std owner (some x)) ∧
    Owner.is_emergency_owner (some (.std owner (some x))) x = true ∧
    (Owner.update api (some (.std owner (some x))) owner .clearEmergencyOwner).1
        = some (.std owner none) ∧
    Owner.is_emergency_owner (some (.std owner none)) x = false ∧
    Owner.emergency_owner (some (.std owner none)) = none := by
  refine ⟨?_, ?_, ?_, rfl, rfl⟩
  · simp [Owner.update, Owner.transition_state, Owner.state, Owner.assert_owner,
      Owner.is_owner, Owner.current, hx]
  · simp [Owner.is_emergency_owner, Owner.emergency_owner, Owner.state]
  · simp [Owner.update, Owner.transition_state, Owner.state, Owner.assert_owner,
      Owner.is_owner, Owner.current]

/-- C7, witness for `emergency_owner_set_clear` at a concrete input. -/
theorem emergency_owner_set_clear_witness :
    Owner.is_emergency_owner (some (.std "alice" (some "carol"))) "carol" = true :=
  (emergency_owner_set_clear okApi "alice" "carol" none rfl).2.1

/-- C8: shape of the query projection.  `owner` is `some` only in `Std` or
`Proposed`; `proposed` is `some` only in `Proposed`; `emergency_owner` is
`some` only in `Std` or `Proposed`; `initialized` is `false` exactly for
`Uninitialized`; `abolished` is `true` exactly for `Abolished`. -/
theorem query_projection_shape (store : Store) :
    ((Owner.query store).owner.isSome = true →
        (∃ o e, Owner.state store = .std o e) ∨
          ∃ o p e, Owner.state store = .proposed o p e) ∧
    ((Owner.query store).proposed.isSome = true →
        ∃ o p e, Owner.state store = .proposed o p e) ∧
    ((Owner.query store).emergency_owner.isSome = true →
        (∃ o e, Owner.state store = .std o e) ∨
          ∃ o p e, Owner.state store = .proposed o p e) ∧
    ((Owner.query store).initialized = false ↔
        Owner.state store = .uninitialized) ∧
    ((Owner.query store).abolished = true ↔
        Owner.state store = .abolished) := by
  cases hs : Owner.state store with
  | uninitialized =>
    refine ⟨?_, ?_, ?_, ?_, ?_⟩ <;>
      simp [Owner.query, Owner.current, Owner.proposed, Owner.emergency_owner, hs]
  | std o e =>
    refine ⟨?_, ?_, ?_, ?_, ?_⟩ <;>
      simp [Owner.query, Owner.current, Owner.proposed, Owner.emergency_owner, hs]
  | proposed o p e =>
    refine ⟨?_, ?_, ?_, ?_, ?_⟩ <;>
      simp [Owner.query, Owner.current, Owner.proposed, Owner.emergency_owner, hs]
  | abolished =>
    refine ⟨?_, ?_, ?_, ?_, ?_⟩ <;>
      simp [Owner.query, Owner.current, Owner.proposed, Owner.emergency_owner, hs]

/-- C8, witness for `query_projection_shape` at a concrete input. -/
theorem query_projection_shape_witness :
    (Owner.query (some (.std "alice" (some "carol")))).initialized = false ↔
      Owner.state (some (.std "alice" (some "carol"))) = .uninitialized :=
  (query_projection_shape (some (.std "alice" (some "carol")))).2.2.2.1

/-- C9: atomicity on error.  Whenever the update or initialization entrypoint
returns an error of any kind, the resulting store is exactly the store before
the call: nothing is written. -/
theorem atomic_on_error (api : Api) (store : Store) (sender : Addr)
    (ev : OwnerUpdate) (ia : OwnerInit) :
    (∀ e, (Owner.update api store sender ev).2 = .error e →
        (Owner.update api store sender ev).1 = store) ∧
    (∀ e, (Owner.init api store ia).2 = .error e →
        (Owner.init api store ia).1 = store) := by
  constructor
  · intro e he
    cases ht : Owner.transition_state api store sender ev with
    | error e2 => simp [Owner.update, ht]
    | ok ns => simp [Owner.update, ht] at he
  · intro e he
    cases hs : Owner.state store with
    | uninitialized =>
      cases ia with
      | setInitialOwner o =>
        cases hv : api o with
        | error msg => simp [Owner.init, hs, hv]
        | ok v => simp [Owner.init, hs, hv] at he
      | abolishOwnerRole => simp [Owner.init, hs] at he
    | std o e2 => simp [Owner.init, hs]
    | proposed o p e2 => simp [Owner.init, hs]
    | abolished => simp [Owner.init, hs]

/-- C9, witness for `atomic_on_error` at a concrete input. -/
theorem atomic_on_error_witness :
    (Owner.update okApi (some .abolished) "alice" .acceptProposed).1
      = some .abolished :=
  (atomic_on_error okApi (some .abolished) "alice" .acceptProposed
    .abolishOwnerRole).1 .stateTransitionError rfl

/-- C10: in the two transitions that both authorize and validate an address
(`ProposeNewOwner` and `SetEmergencyOwner` from `Std`), the owner check runs
first: a non-owner caller receives `NotOwner` for every api, in particular for
one that rejects the supplied address, so `NotOwner` takes precedence over
validation errors. -/
theorem not_owner_precedes_validation (api : Api) (owner sender p x : Addr)
    (em : Option Addr) (h : sender ≠ owner) :
    Owner.transition_state api (some (.std owner em)) sender (.proposeNewOwner p)
        = .error .notOwner ∧
    Owner.transition_state api (some (.std owner em)) sender (.setEmergencyOwner x)
        = .error .notOwner := by
  have hb : (owner == sender) = false := beq_eq_false_iff_ne.mpr (fun hE => h hE.symm)
  constructor <;>
    simp [Owner.transition_state, Owner.state, Owner.assert_owner, Owner.is_owner,
      Owner.current, hb]

/-- C10, witness for `not_owner_precedes_validation`: the api rejects the
address, yet the non-owner caller still gets `NotOwner`. -/
theorem not_owner_precedes_validation_witness :
    rejectApi "not-an-address" = .error "invalid address" ∧
    Owner.transition_state rejectApi (some (.std "alice" none)) "mallory"
        (.proposeNewOwner "not-an-address") = .error .notOwner :=
  ⟨rfl, (not_owner_precedes_validation rejectApi "alice" "mallory"
    "not-an-address" "carol" none (by decide)).1⟩
